import Mathlib

/-
Verification of the declarative reconciliation controller for the
Data Factory schedule-trigger resource
(internal/services/datafactory/data_factory_trigger_schedule_resource.go).

The embedding follows the Go source: the schedule codec
(expandDataFactorySchedule / flattenDataFactorySchedule) is translated as
pure functions on explicit option-typed records; the create/update, read
and delete handlers are translated as state-passing functions over an
explicit remote-store value and a record of injected remote-call outcomes,
producing the handler result together with the ordered trace of remote
calls it issued.
-/

namespace DataFactoryTriggerSchedule

/-- Contents of one declarative `schedule` block as the handler reads it
from the configuration (`d.Get("schedule")`): the five list fields, an
unset field reading as the empty list (the flat configuration form fills
unset lists with their zero value). A `monthly` entry is a
(weekday, week) pair; an unset `week` reads as 0. -/
structure DeclSchedule where
  days_of_month : List Int
  days_of_week : List String
  hours : List Int
  minutes : List Int
  monthly : List (String × Int)
  deriving DecidableEq, Repr

/-- Remote `RecurrenceScheduleOccurrence`: `Day` is a value-typed weekday
name, `Occurrence` a nullable integer. -/
structure RecurrenceScheduleOccurrence where
  day : String
  occurrence : Option Int
  deriving DecidableEq, Repr

/-- Remote `RecurrenceSchedule`: all five fields are nullable; `none`
models a nil pointer (field omitted on the wire). -/
structure RecurrenceSchedule where
  minutes : Option (List Int)
  hours : Option (List Int)
  weekDays : Option (List String)
  monthDays : Option (List Int)
  monthlyOccurrences : Option (List RecurrenceScheduleOccurrence)
  deriving DecidableEq, Repr

/-- One `monthly` entry as produced by the flatten direction: the `week`
key is only written when the remote `Occurrence` is non-nil. -/
structure FlatOccurrence where
  weekday : String
  week : Option Int
  deriving DecidableEq, Repr

/-- One flattened `schedule` block as produced by the flatten direction:
each key is present (`some`) only when the corresponding remote field is
non-nil. -/
structure FlatSchedule where
  minutes : Option (List Int)
  hours : Option (List Int)
  days_of_week : Option (List String)
  days_of_month : Option (List Int)
  monthly : Option (List FlatOccurrence)
  deriving DecidableEq, Repr

/-- Translation of `expandDataFactorySchedule`: returns nil when the block
list is empty or its head is nil; otherwise builds a remote schedule whose
fields are set only when the corresponding input list is non-empty. -/
def expandDataFactorySchedule (input : List (Option DeclSchedule)) :
    Option RecurrenceSchedule :=
  match input with
  | [] => none
  | none :: _ => none
  | some value :: _ =>
    let weekDays : List String := value.days_of_week
    let monthlyOccurrences : List RecurrenceScheduleOccurrence :=
      value.monthly.map (fun v => { day := v.1, occurrence := some v.2 })
    some
      { weekDays := if weekDays.length > 0 then some weekDays else none
        monthlyOccurrences :=
          if monthlyOccurrences.length > 0 then some monthlyOccurrences else none
        monthDays :=
          if value.days_of_month.length > 0 then some value.days_of_month else none
        minutes := if value.minutes.length > 0 then some value.minutes else none
        hours := if value.hours.length > 0 then some value.hours else none }

/-- Translation of `flattenDataFactorySchedule`: nil becomes the empty
block list; otherwise one block is produced, each key written only when
the remote field is non-nil, and a `monthly` entry's `week` key written
only when its `Occurrence` is non-nil. -/
def flattenDataFactorySchedule (schedule : Option RecurrenceSchedule) :
    List FlatSchedule :=
  match schedule with
  | none => []
  | some s =>
    [{ minutes := s.minutes
       hours := s.hours
       days_of_week := s.weekDays
       days_of_month := s.monthDays
       monthly := s.monthlyOccurrences.map
         (fun l => l.map (fun v => { weekday := v.day, week := v.occurrence })) }]

/-- Schema zero-fill applied when a flattened block is written to state and
read back as configuration: absent keys read as empty lists and an absent
`week` reads as 0. -/
def normalizeFlat (f : FlatSchedule) : DeclSchedule :=
  { days_of_month := f.days_of_month.getD []
    days_of_week := f.days_of_week.getD []
    hours := f.hours.getD []
    minutes := f.minutes.getD []
    monthly := (f.monthly.getD []).map (fun o => (o.weekday, o.week.getD 0)) }

/-- A declarative schedule block has a populated field when at least one of
its five lists is non-empty. -/
def hasPopulatedField (d : DeclSchedule) : Bool :=
  !d.days_of_month.isEmpty || !d.days_of_week.isEmpty || !d.hours.isEmpty ||
  !d.minutes.isEmpty || !d.monthly.isEmpty

theorem optIfNonempty_spec {α : Type} (l : List α) :
    ((if l.length > 0 then some l else none) = none ↔ l = [])
    ∧ ∀ m, (if l.length > 0 then some l else none) = some m → m = l := by
  by_cases h : l.length > 0
  · have hne : l ≠ [] := by
      intro hl
      subst hl
      simp at h
    constructor
    · simp [h, hne]
    · intro m hm
      simp [h] at hm
      exact hm.symm
  · have hl : l = [] := List.length_eq_zero.mp (Nat.le_zero.mp (Nat.not_lt.mp h))
    subst hl
    simp

theorem optIfNonempty_getD {α : Type} (l : List α) :
    (if l.length > 0 then some l else none).getD [] = l := by
  by_cases h : l.length > 0
  · simp [h]
  · have hl : l = [] := List.length_eq_zero.mp (Nat.le_zero.mp (Nat.not_lt.mp h))
    simp [hl]

theorem expand_head (d : DeclSchedule) (t : List (Option DeclSchedule)) :
    expandDataFactorySchedule (some d :: t) = expandDataFactorySchedule [some d] := rfl

theorem flatten_expand_normalize (d : DeclSchedule) (t : List (Option DeclSchedule)) :
    (flattenDataFactorySchedule (expandDataFactorySchedule (some d :: t))).map
      (fun f => some (normalizeFlat f)) = [some d] := by
  simp only [expandDataFactorySchedule, flattenDataFactorySchedule, normalizeFlat,
    List.map_cons, List.map_nil, List.cons.injEq, and_true, Option.some.injEq]
  cases d with
  | mk dm dw hh mm mo =>
    simp only [DeclSchedule.mk.injEq]
    refine ⟨optIfNonempty_getD dm, optIfNonempty_getD dw, optIfNonempty_getD hh,
      optIfNonempty_getD mm, ?_⟩
    rw [show (mo.map (fun v : String × Int =>
        ({ day := v.1, occurrence := some v.2 } : RecurrenceScheduleOccurrence))).length
        = mo.length from List.length_map _ _]
    by_cases h : mo.length > 0
    · simp [h]
      exact List.map_id mo
    · have hl : mo = [] := List.length_eq_zero.mp (Nat.le_zero.mp (Nat.not_lt.mp h))
      simp [hl]

/-- Claim C1: for every declarative schedule block value with at least one
populated field, decoding after a second encode pass agrees with decoding
after the first encode pass (the codec is idempotent after one
normalization), and no field absent in the input becomes present after one
encode/decode pass. -/
theorem schedule_codec_roundtrip (x : List (Option DeclSchedule)) (d : DeclSchedule)
    (hx : x.head? = some (some d)) (_hp : hasPopulatedField d = true) :
    flattenDataFactorySchedule (expandDataFactorySchedule
        ((flattenDataFactorySchedule (expandDataFactorySchedule x)).map
          (fun f => some (normalizeFlat f))))
      = flattenDataFactorySchedule (expandDataFactorySchedule x)
    ∧ (d.days_of_month = [] →
        ∀ f ∈ flattenDataFactorySchedule (expandDataFactorySchedule x),
          f.days_of_month = none)
    ∧ (d.days_of_week = [] →
        ∀ f ∈ flattenDataFactorySchedule (expandDataFactorySchedule x),
          f.days_of_week = none)
    ∧ (d.hours = [] →
        ∀ f ∈ flattenDataFactorySchedule (expandDataFactorySchedule x), f.hours = none)
    ∧ (d.minutes = [] →
        ∀ f ∈ flattenDataFactorySchedule (expandDataFactorySchedule x), f.minutes = none)
    ∧ (d.monthly = [] →
        ∀ f ∈ flattenDataFactorySchedule (expandDataFactorySchedule x),
          f.monthly = none) := by
  obtain ⟨t, rfl⟩ : ∃ t, x = some d :: t := by
    cases x with
    | nil => simp at hx
    | cons a t =>
      cases a with
      | none => simp at hx
      | some d0 =>
        simp only [List.head?_cons, Option.some.injEq] at hx
        exact ⟨t, by rw [hx]⟩
  refine ⟨?_, ?_, ?_, ?_, ?_, ?_⟩
  · rw [flatten_expand_normalize d t, expand_head d t]
  all_goals
    intro h f hf
    simp only [expandDataFactorySchedule, flattenDataFactorySchedule, h,
      List.mem_singleton] at hf
    subst hf
    simp

/-- Closed instance of claim C1 at a concrete one-field schedule block. -/
theorem schedule_codec_roundtrip_witness :
    flattenDataFactorySchedule (expandDataFactorySchedule
        ((flattenDataFactorySchedule (expandDataFactorySchedule
            [some { days_of_month := [1], days_of_week := [], hours := [],
                    minutes := [], monthly := [] }])).map
          (fun f => some (normalizeFlat f))))
      = flattenDataFactorySchedule (expandDataFactorySchedule
          [some { days_of_month := [1], days_of_week := [], hours := [],
                  minutes := [], monthly := [] }])
    ∧ (([1] : List Int) = [] →
        ∀ f ∈ flattenDataFactorySchedule (expandDataFactorySchedule
            [some { days_of_month := [1], days_of_week := [], hours := [],
                    minutes := [], monthly := [] }]),
          f.days_of_month = none)
    ∧ (([] : List String) = [] →
        ∀ f ∈ flattenDataFactorySchedule (expandDataFactorySchedule
            [some { days_of_month := [1], days_of_week := [], hours := [],
                    minutes := [], monthly := [] }]),
          f.days_of_week = none)
    ∧ (([] : List Int) = [] →
        ∀ f ∈ flattenDataFactorySchedule (expandDataFactorySchedule
            [some { days_of_month := [1], days_of_week := [], hours := [],
                    minutes := [], monthly := [] }]),
          f.hours = none)
    ∧ (([] : List Int) = [] →
        ∀ f ∈ flattenDataFactorySchedule (expandDataFactorySchedule
            [some { days_of_month := [1], days_of_week := [], hours := [],
                    minutes := [], monthly := [] }]),
          f.minutes = none)
    ∧ (([] : List (String × Int)) = [] →
        ∀ f ∈ flattenDataFactorySchedule (expandDataFactorySchedule
            [some { days_of_month := [1], days_of_week := [], hours := [],
                    minutes := [], monthly := [] }]),
          f.monthly = none) := by
  have h := schedule_codec_roundtrip
    [some { days_of_month := [1], days_of_week := [], hours := [],
            minutes := [], monthly := [] }]
    { days_of_month := [1], days_of_week := [], hours := [],
      minutes := [], monthly := [] } rfl (by decide)
  exact h

/-- Claim C2 counterexample: a schedule block that is present but has no
populated field (all five lists empty) is encoded to a non-nil remote
schedule, so the encoder does not return nothing for an input with no
populated field. -/
theorem expand_empty_block_counterexample :
    expandDataFactorySchedule
        [some { days_of_month := [], days_of_week := [], hours := [],
                minutes := [], monthly := [] }] ≠ none
    ∧ hasPopulatedField
        { days_of_month := [], days_of_week := [], hours := [],
          minutes := [], monthly := [] } = false := by
  constructor
  · intro h
    simp [expandDataFactorySchedule] at h
  · decide

/-- Claim C2 (amended): the encoder returns nothing exactly when the block
list is empty or its head is nil; otherwise each of the five remote
sub-fields is present exactly when the corresponding input list is
non-empty, with values copied verbatim and order preserved. -/
theorem expand_field_presence (x : List (Option DeclSchedule)) :
    (expandDataFactorySchedule x = none ↔ (x = [] ∨ x.head? = some none))
    ∧ (∀ d, x.head? = some (some d) → ∀ s, expandDataFactorySchedule x = some s →
        ((s.monthDays = none ↔ d.days_of_month = [])
          ∧ ∀ l, s.monthDays = some l → l = d.days_of_month)
      ∧ ((s.weekDays = none ↔ d.days_of_week = [])
          ∧ ∀ l, s.weekDays = some l → l = d.days_of_week)
      ∧ ((s.hours = none ↔ d.hours = []) ∧ ∀ l, s.hours = some l → l = d.hours)
      ∧ ((s.minutes = none ↔ d.minutes = []) ∧ ∀ l, s.minutes = some l → l = d.minutes)
      ∧ ((s.monthlyOccurrences = none ↔ d.monthly = [])
          ∧ ∀ l, s.monthlyOccurrences = some l →
              l = d.monthly.map (fun v => { day := v.1, occurrence := some v.2 }))) := by
  constructor
  · cases x with
    | nil => simp [expandDataFactorySchedule]
    | cons a t =>
      cases a with
      | none => simp [expandDataFactorySchedule]
      | some d => simp [expandDataFactorySchedule]
  · intro d hd s hs
    obtain ⟨t, rfl⟩ : ∃ t, x = some d :: t := by
      cases x with
      | nil => simp at hd
      | cons a t =>
        cases a with
        | none => simp at hd
        | some d0 =>
          simp only [List.head?_cons, Option.some.injEq] at hd
          exact ⟨t, by rw [hd]⟩
    simp only [expandDataFactorySchedule, Option.some.injEq] at hs
    subst hs
    refine ⟨⟨?_, ?_⟩, ⟨?_, ?_⟩, ⟨?_, ?_⟩, ⟨?_, ?_⟩, ⟨?_, ?_⟩⟩
    · exact (optIfNonempty_spec d.days_of_month).1
    · exact fun l hl => (optIfNonempty_spec d.days_of_month).2 l hl
    · exact (optIfNonempty_spec d.days_of_week).1
    · exact fun l hl => (optIfNonempty_spec d.days_of_week).2 l hl
    · exact (optIfNonempty_spec d.hours).1
    · exact fun l hl => (optIfNonempty_spec d.hours).2 l hl
    · exact (optIfNonempty_spec d.minutes).1
    · exact fun l hl => (optIfNonempty_spec d.minutes).2 l hl
    · exact ((optIfNonempty_spec (d.monthly.map (fun v : String × Int =>
        ({ day := v.1, occurrence := some v.2 } : RecurrenceScheduleOccurrence)))).1.trans
        List.map_eq_nil_iff)
    · exact fun l hl => (optIfNonempty_spec (d.monthly.map (fun v : String × Int =>
        ({ day := v.1, occurrence := some v.2 } : RecurrenceScheduleOccurrence)))).2 l hl

/-- Closed instance of the amended claim C2 at a concrete input: the block
with only `hours` populated encodes to a schedule whose `hours` field is
present and whose `minutes` field is absent. -/
theorem expand_field_presence_witness :
    (expandDataFactorySchedule
        ([some { days_of_month := [], days_of_week := [], hours := [5],
                 minutes := [], monthly := [] }]) = none
      ↔ (([some { days_of_month := [], days_of_week := [], hours := [5],
                  minutes := [], monthly := [] }]
            : List (Option DeclSchedule)) = []
          ∨ ([some { days_of_month := [], days_of_week := [], hours := [5],
                     minutes := [], monthly := [] }]
              : List (Option DeclSchedule)).head? = some none))
    ∧ (({ minutes := none, hours := some [5], weekDays := none,
          monthDays := none, monthlyOccurrences := none } : RecurrenceSchedule).hours = none
        ↔ ([5] : List Int) = [])
    ∧ (({ minutes := none, hours := some [5], weekDays := none,
          monthDays := none, monthlyOccurrences := none } : RecurrenceSchedule).minutes = none
        ↔ ([] : List Int) = []) := by
  refine ⟨(expand_field_presence
      [some { days_of_month := [], days_of_week := [], hours := [5],
              minutes := [], monthly := [] }]).1, ?_, ?_⟩
  · exact ((expand_field_presence
      [some { days_of_month := [], days_of_week := [], hours := [5],
              minutes := [], monthly := [] }]).2
      { days_of_month := [], days_of_week := [], hours := [5],
        minutes := [], monthly := [] } rfl
      { minutes := none, hours := some [5], weekDays := none,
        monthDays := none, monthlyOccurrences := none } (by simp [expandDataFactorySchedule])).2.2.1.1
  · exact ((expand_field_presence
      [some { days_of_month := [], days_of_week := [], hours := [5],
              minutes := [], monthly := [] }]).2
      { days_of_month := [], days_of_week := [], hours := [5],
        minutes := [], monthly := [] } rfl
      { minutes := none, hours := some [5], weekDays := none,
        monthDays := none, monthlyOccurrences := none } (by simp [expandDataFactorySchedule])).2.2.2.1.1

/-- Claim C3 counterexample: decoding a nil remote schedule yields the
empty block list, not a present-but-empty singleton block. -/
theorem flatten_none_counterexample :
    flattenDataFactorySchedule none = [] ∧ (flattenDataFactorySchedule none).length ≠ 1 := by
  decide

/-- Claim C3 (amended): the decoder returns the empty block list when the
remote schedule is nil; for every non-nil remote schedule it returns a
singleton block in which each populated remote field is copied back and
each absent remote field stays omitted. -/
theorem flatten_field_presence (s : Option RecurrenceSchedule) :
    (s = none → flattenDataFactorySchedule s = [])
    ∧ (∀ r, s = some r → ∃ f, flattenDataFactorySchedule s = [f]
        ∧ f.minutes = r.minutes
        ∧ f.hours = r.hours
        ∧ f.days_of_week = r.weekDays
        ∧ f.days_of_month = r.monthDays
        ∧ (r.monthlyOccurrences = none → f.monthly = none)
        ∧ (∀ l, r.monthlyOccurrences = some l →
            f.monthly = some (l.map (fun v => { weekday := v.day, week := v.occurrence })))) := by
  constructor
  · intro h
    subst h
    rfl
  · intro r hr
    subst hr
    refine ⟨_, rfl, rfl, rfl, rfl, rfl, ?_, ?_⟩
    · intro h
      simp [h]
    · intro l hl
      simp [hl]

/-- Closed instance of the amended claim C3 at a concrete remote schedule:
nil decodes to the empty block list, and a schedule with only `minutes`
populated decodes to exactly one block. -/
theorem flatten_field_presence_witness :
    flattenDataFactorySchedule none = []
    ∧ (flattenDataFactorySchedule
        (some { minutes := some [0], hours := none, weekDays := none,
                monthDays := none, monthlyOccurrences := none })).length = 1 := by
  refine ⟨(flatten_field_presence none).1 rfl, ?_⟩
  obtain ⟨f, hf, -⟩ := (flatten_field_presence
    (some { minutes := some [0], hours := none, weekDays := none,
            monthDays := none, monthlyOccurrences := none })).2
    { minutes := some [0], hours := none, weekDays := none,
      monthDays := none, monthlyOccurrences := none } rfl
  rw [hf]
  rfl

/-- Data Factory identity: subscription, resource group and factory name. -/
structure DataFactoryId where
  subscriptionId : String
  resourceGroup : String
  factoryName : String
  deriving DecidableEq, Repr

/-- Trigger identity: the factory identity plus the trigger name. -/
structure TriggerId where
  subscriptionId : String
  resourceGroup : String
  factoryName : String
  name : String
  deriving DecidableEq, Repr

/-- Canonical address string of a Data Factory identity. -/
def dataFactoryIdString (f : DataFactoryId) : String :=
  "/subscriptions/" ++ f.subscriptionId ++ "/resourceGroups/" ++ f.resourceGroup ++
    "/providers/Microsoft.DataFactory/factories/" ++ f.factoryName

/-- Canonical address string of a trigger identity. -/
def triggerIdString (i : TriggerId) : String :=
  dataFactoryIdString
      { subscriptionId := i.subscriptionId, resourceGroup := i.resourceGroup,
        factoryName := i.factoryName } ++ "/triggers/" ++ i.name

/-- Modelled from the spec: `parse.DataFactoryID` (the identifier parsing
collaborator, not under src/) parses a composite factory identifier string
into subscription, resource group and factory name, failing on a string
that does not match the composite shape. -/
def parseDataFactoryID (input : String) : Except Unit DataFactoryId :=
  match (input.data.splitOn '/').map String.mk with
  | ["", "subscriptions", s, "resourceGroups", g, "providers",
      "Microsoft.DataFactory", "factories", f] =>
    if s.isEmpty || g.isEmpty || f.isEmpty then .error ()
    else .ok { subscriptionId := s, resourceGroup := g, factoryName := f }
  | _ => .error ()

/-- Configuration values the create/update handler reads from the resource
data. String fields read as the empty string when unset; `annotations`
reads as the empty list when unset (`GetOk` is false exactly then). -/
structure ResourceConfig where
  name : String
  resource_group_name : String
  data_factory_name : String
  data_factory_id : String
  description : String
  schedule : List (Option DeclSchedule)
  start_time : String
  end_time : String
  frequency : String
  interval : Int
  activated : Bool
  pipeline_name : String
  pipeline_parameters : List (String × String)
  annotations : List String
  deriving DecidableEq, Repr

/-- Translation of the factory-selector resolution at the top of the
create/update handler: a name-based identity is built when
`data_factory_name` is non-empty, then overwritten by the parse of
`data_factory_id` when that is non-empty; `none` models the nil
`dataFactoryId` pointer that is dereferenced right after. -/
def resolveDataFactoryId (subscriptionId : String) (cfg : ResourceConfig) :
    Except Unit (Option DataFactoryId) :=
  let byName : Option DataFactoryId :=
    if cfg.data_factory_name ≠ "" then
      some { subscriptionId := subscriptionId, resourceGroup := cfg.resource_group_name,
             factoryName := cfg.data_factory_name }
    else none
  if cfg.data_factory_id ≠ "" then
    match parseDataFactoryID cfg.data_factory_id with
    | .ok v => .ok (some v)
    | .error e => .error e
  else .ok byName

/-- Remote trigger runtime state. -/
inductive TriggerRuntimeState
  | started
  | stopped
  | starting
  | stopping
  deriving DecidableEq, Repr

/-- Comparison `RuntimeState == TriggerRuntimeStateStarted` used by the
read handler to project the `activated` flag. -/
def isStarted : TriggerRuntimeState → Bool
  | .started => true
  | _ => false

/-- Remote `PipelineReference`: nullable reference name and type tag. -/
structure PipelineReference where
  referenceName : Option String
  refType : Option String
  deriving DecidableEq, Repr

/-- Remote `TriggerPipelineReference`: nullable reference plus parameters. -/
structure TriggerPipelineReference where
  pipelineReference : Option PipelineReference
  parameters : List (String × String)
  deriving DecidableEq, Repr

/-- Remote `ScheduleTriggerRecurrence`: frequency is value-typed, the rest
nullable; timestamps are kept as opaque RFC3339 strings. -/
structure ScheduleTriggerRecurrence where
  frequency : String
  interval : Option Int
  startTime : Option String
  endTime : Option String
  schedule : Option RecurrenceSchedule
  deriving DecidableEq, Repr

/-- Discriminator value of the schedule-trigger kind. -/
def scheduleTriggerKind : String := "ScheduleTrigger"

/-- Remote trigger object as held by the remote store: identity, declared
kind, runtime state and definition fields. -/
structure RemoteTrigger where
  id : String
  name : String
  kind : String
  runtimeState : TriggerRuntimeState
  recurrence : Option ScheduleTriggerRecurrence
  pipelines : Option (List TriggerPipelineReference)
  annotations : Option (List String)
  description : Option String
  deriving DecidableEq, Repr

/-- SDK polymorphic dispatch `AsScheduleTrigger`: succeeds exactly when the
object's declared kind is the schedule-trigger kind. -/
def asScheduleTrigger (t : RemoteTrigger) : Option RemoteTrigger :=
  if t.kind = scheduleTriggerKind then some t else none

/-- Remote calls a handler can issue, in the order it issues them. -/
inductive RemoteCall
  | get
  | createOrUpdate
  | start
  | startWait
  | stop
  | stopWait
  | delete
  deriving DecidableEq, Repr

/-- Errors the create/update and delete handlers surface. -/
inductive CtrlError
  | parseError
  | checkExistingFailed
  | importAsExists (id : String)
  | createFailed
  | startFailed
  | startWaitFailed
  | stopFailed
  | stopWaitFailed
  | deleteFailed
  deriving DecidableEq, Repr

/-- Handler outcome: a Go nil-pointer dereference, a surfaced error, a
successful completion carrying no identity (delete), or a successful
completion recording the trigger identity. -/
inductive CtrlOutcome
  | panicNilDeref
  | failure (e : CtrlError)
  | done
  | ok (id : TriggerId)
  deriving DecidableEq, Repr

/-- Injected outcomes of the remote calls: each flag makes the
corresponding call (or its long-running-operation wait) fail. -/
structure ClientBehavior where
  getErr : Bool
  createOrUpdateErr : Bool
  startErr : Bool
  startWaitErr : Bool
  stopErr : Bool
  stopWaitErr : Bool
  deleteErr : Bool
  deriving DecidableEq, Repr

/-- Shape of the `client.Get` response as the existence pre-check reads
it: an error flag, the not-found classification of that error, and the
nullable id of the returned object. -/
structure GetResponse where
  err : Bool
  wasNotFound : Bool
  respId : Option String
  deriving DecidableEq, Repr

/-- The `client.Get` call against the modelled remote store: an injected
failure is a non-not-found error; a missing object is a not-found error;
a present object is returned with its id. -/
def clientGet (b : ClientBehavior) (store : Option RemoteTrigger) : GetResponse :=
  if b.getErr then { err := true, wasNotFound := false, respId := none }
  else
    match store with
    | none => { err := true, wasNotFound := true, respId := none }
    | some o => { err := false, wasNotFound := false, respId := some o.id }

/-- Translation of the payload construction (lines 261-305): recurrence
from the configured frequency, interval and schedule, start time falling
back to the captured clock value, end time only when configured, exactly
one pipeline reference, description always set, annotations only when the
configuration supplies some. -/
def buildScheduleTrigger (now : String) (cfg : ResourceConfig) : RemoteTrigger :=
  { id := ""
    name := cfg.name
    kind := scheduleTriggerKind
    runtimeState := .stopped
    recurrence := some
      { frequency := cfg.frequency
        interval := some cfg.interval
        startTime := some (if cfg.start_time ≠ "" then cfg.start_time else now)
        endTime := if cfg.end_time ≠ "" then some cfg.end_time else none
        schedule := expandDataFactorySchedule cfg.schedule }
    pipelines := some
      [{ pipelineReference := some
           { referenceName := some cfg.pipeline_name, refType := some "PipelineReference" }
         parameters := cfg.pipeline_parameters }]
    annotations := if cfg.annotations.isEmpty then none else some cfg.annotations
    description := some cfg.description }

/-- Modelled from the spec: the remote store's reaction to a successful
`createOrUpdate` (external collaborator): the definition is replaced by
the payload, the object is addressable under the trigger identity, and a
newly created object defaults to the Stopped runtime state while an
existing object keeps its runtime state. -/
def applyCreateOrUpdate (i : TriggerId) (payload : RemoteTrigger)
    (store : Option RemoteTrigger) : RemoteTrigger :=
  { payload with
      id := triggerIdString i
      runtimeState :=
        match store with
        | some o => o.runtimeState
        | none => .stopped }

/-- A handler run: its outcome, the ordered trace of remote calls it
issued, and the remote store it leaves behind. -/
structure HandlerResult where
  outcome : CtrlOutcome
  trace : List RemoteCall
  store : Option RemoteTrigger
  deriving DecidableEq, Repr

/-- Translation of the create/update handler after the existence check:
createOrUpdate, then, only when `activated` is configured, start and the
wait on its long-running operation; any failure is surfaced and stops the
sequence. -/
def createUpdateBody (now : String) (i : TriggerId) (cfg : ResourceConfig)
    (b : ClientBehavior) (store : Option RemoteTrigger) (tr : List RemoteCall) :
    HandlerResult :=
  if b.createOrUpdateErr then
    { outcome := .failure .createFailed, trace := tr ++ [.createOrUpdate], store := store }
  else
    let store1 := some (applyCreateOrUpdate i (buildScheduleTrigger now cfg) store)
    let tr1 := tr ++ [.createOrUpdate]
    if cfg.activated then
      if b.startErr then
        { outcome := .failure .startFailed, trace := tr1 ++ [.start], store := store1 }
      else
        let store2 := store1.map (fun o => { o with runtimeState := .started })
        if b.startWaitErr then
          { outcome := .failure .startWaitFailed, trace := tr1 ++ [.start, .startWait],
            store := store2 }
        else
          { outcome := .ok i, trace := tr1 ++ [.start, .startWait], store := store2 }
    else
      { outcome := .ok i, trace := tr1, store := store1 }

/-- Translation of `resourceDataFactoryTriggerScheduleCreateUpdate`:
factory-selector resolution (nil dereference when both selectors are
empty), the existence pre-check on a creation request with
import-as-exists semantics, then the create/start sequence. -/
def resourceDataFactoryTriggerScheduleCreateUpdate
    (subscriptionId now : String) (isNew : Bool) (cfg : ResourceConfig)
    (b : ClientBehavior) (store : Option RemoteTrigger) : HandlerResult :=
  match resolveDataFactoryId subscriptionId cfg with
  | .error _ => { outcome := .failure .parseError, trace := [], store := store }
  | .ok none => { outcome := .panicNilDeref, trace := [], store := store }
  | .ok (some dfid) =>
    let i : TriggerId :=
      { subscriptionId := subscriptionId, resourceGroup := dfid.resourceGroup,
        factoryName := dfid.factoryName, name := cfg.name }
    if isNew then
      let g := clientGet b store
      if g.err && !g.wasNotFound then
        { outcome := .failure .checkExistingFailed, trace := [.get], store := store }
      else if (g.respId.getD "") ≠ "" then
        { outcome := .failure (.importAsExists (g.respId.getD "")), trace := [.get],
          store := store }
      else createUpdateBody now i cfg b store [.get]
    else createUpdateBody now i cfg b store []

/-- Translation of `resourceDataFactoryTriggerScheduleDelete`: stop, the
wait on its long-running operation, then delete; each failure is surfaced
and stops the sequence, leaving the object in the store. The handler never
inspects the object's runtime state before stopping. -/
def resourceDataFactoryTriggerScheduleDelete (b : ClientBehavior)
    (store : Option RemoteTrigger) : HandlerResult :=
  if b.stopErr then
    { outcome := .failure .stopFailed, trace := [.stop], store := store }
  else
    let store1 := store.map (fun o => { o with runtimeState := .stopped })
    if b.stopWaitErr then
      { outcome := .failure .stopWaitFailed, trace := [.stop, .stopWait], store := store1 }
    else if b.deleteErr then
      { outcome := .failure .deleteFailed, trace := [.stop, .stopWait, .delete],
        store := store1 }
    else
      { outcome := .done, trace := [.stop, .stopWait, .delete], store := none }

/-- Errors the read handler surfaces. -/
inductive ReadError
  | retrieveFailed
  | classificationError (received : String)
  deriving DecidableEq, Repr

/-- Stored declarative state as the read handler writes it. -/
structure StateData where
  idStr : String
  name : String
  resource_group_name : String
  data_factory_name : String
  data_factory_id : String
  activated : Bool
  start_time : String
  end_time : String
  frequency : String
  interval : Int
  schedule : List FlatSchedule
  pipeline_name : String
  pipeline_parameters : List (String × String)
  annotations : List String
  description : String
  deriving DecidableEq, Repr

/-- Translation of `flattenDataFactoryAnnotations`: absent annotations
become the empty list. -/
def flattenDataFactoryAnnotations (a : Option (List String)) : List String :=
  a.getD []

/-- Translation of `resourceDataFactoryTriggerScheduleRead`: fetch by
identity; not-found clears the stored id; a found object must classify as
a schedule trigger, then its fields are projected into state, each
nullable remote field only when present (an error return leaves the
stored state unpersisted, so the error cases carry no state). -/
def resourceDataFactoryTriggerScheduleRead (getErr : Bool) (tid : TriggerId)
    (store : Option RemoteTrigger) (d : StateData) : Except ReadError StateData :=
  if getErr then .error .retrieveFailed
  else
    match store with
    | none => .ok { d with idStr := "" }
    | some resp =>
      let d1 :=
        { d with
            name := resp.name
            resource_group_name := tid.resourceGroup
            data_factory_name := tid.factoryName
            data_factory_id := dataFactoryIdString
              { subscriptionId := tid.subscriptionId, resourceGroup := tid.resourceGroup,
                factoryName := tid.factoryName } }
      match asScheduleTrigger resp with
      | none => .error (.classificationError resp.kind)
      | some props =>
        let d2 := { d1 with activated := isStarted props.runtimeState }
        let d3 :=
          match props.recurrence with
          | none => d2
          | some rec =>
            let da :=
              match rec.startTime with
              | none => d2
              | some t => { d2 with start_time := t }
            let db :=
              match rec.endTime with
              | none => da
              | some t => { da with end_time := t }
            let dc := { db with frequency := rec.frequency, interval := rec.interval.getD 0 }
            match rec.schedule with
            | none => dc
            | some sch => { dc with schedule := flattenDataFactorySchedule (some sch) }
        let d4 :=
          match props.pipelines with
          | none => d3
          | some ps =>
            match ps with
            | [] => d3
            | p :: _ =>
              let dn :=
                match p.pipelineReference with
                | none => d3
                | some r => { d3 with pipeline_name := r.referenceName.getD "" }
              { dn with pipeline_parameters := p.parameters }
        .ok { d4 with
                annotations := flattenDataFactoryAnnotations props.annotations
                description := props.description.getD "" }

/-- Claim C4: every deletion cycle issues stop first and awaits its
completion before issuing delete, even when the object is already
stopped; when the stop call or its wait fails or times out, delete is
never attempted, the error is surfaced, and the object remains. -/
theorem delete_stops_before_delete (b : ClientBehavior) (store : Option RemoteTrigger) :
    ((resourceDataFactoryTriggerScheduleDelete b store).trace.head? = some .stop)
    ∧ (RemoteCall.delete ∈ (resourceDataFactoryTriggerScheduleDelete b store).trace →
        (resourceDataFactoryTriggerScheduleDelete b store).trace
          = [.stop, .stopWait, .delete])
    ∧ ((b.stopErr = true ∨ b.stopWaitErr = true) →
        RemoteCall.delete ∉ (resourceDataFactoryTriggerScheduleDelete b store).trace
        ∧ (∃ e, (resourceDataFactoryTriggerScheduleDelete b store).outcome = .failure e)
        ∧ (resourceDataFactoryTriggerScheduleDelete b store).store.isSome
            = store.isSome) := by
  cases hs : b.stopErr <;> cases hw : b.stopWaitErr <;> cases hd : b.deleteErr <;>
    simp [resourceDataFactoryTriggerScheduleDelete, hs, hw, hd]

/-- Closed instance of claim C4: a failing stop call against an
already-stopped object issues no delete, surfaces an error, and leaves
the object in the store. -/
theorem delete_stops_before_delete_witness :
    RemoteCall.delete ∉ (resourceDataFactoryTriggerScheduleDelete
        { getErr := false, createOrUpdateErr := false, startErr := false,
          startWaitErr := false, stopErr := true, stopWaitErr := false, deleteErr := false }
        (some { id := "x", name := "t", kind := "ScheduleTrigger",
                runtimeState := .stopped, recurrence := none, pipelines := none,
                annotations := none, description := none })).trace
    ∧ (∃ e, (resourceDataFactoryTriggerScheduleDelete
        { getErr := false, createOrUpdateErr := false, startErr := false,
          startWaitErr := false, stopErr := true, stopWaitErr := false, deleteErr := false }
        (some { id := "x", name := "t", kind := "ScheduleTrigger",
                runtimeState := .stopped, recurrence := none, pipelines := none,
                annotations := none, description := none })).outcome = .failure e)
    ∧ ((resourceDataFactoryTriggerScheduleDelete
        { getErr := false, createOrUpdateErr := false, startErr := false,
          startWaitErr := false, stopErr := true, stopWaitErr := false, deleteErr := false }
        (some { id := "x", name := "t", kind := "ScheduleTrigger",
                runtimeState := .stopped, recurrence := none, pipelines := none,
                annotations := none, description := none })).trace.head? = some .stop) := by
  have h := delete_stops_before_delete
    { getErr := false, createOrUpdateErr := false, startErr := false,
      startWaitErr := false, stopErr := true, stopWaitErr := false, deleteErr := false }
    (some { id := "x", name := "t", kind := "ScheduleTrigger",
            runtimeState := .stopped, recurrence := none, pipelines := none,
            annotations := none, description := none })
  exact ⟨(h.2.2 (Or.inl rfl)).1, (h.2.2 (Or.inl rfl)).2.1, h.1⟩

/-- Claim C5: a creation request (fresh resource, no prior remote id)
whose existence check resolves to a present remote object fails with the
import-as-exists error, and no createOrUpdate call is issued. -/
theorem create_import_as_exists (sub now : String) (cfg : ResourceConfig)
    (b : ClientBehavior) (o : RemoteTrigger) (dfid : DataFactoryId)
    (hres : resolveDataFactoryId sub cfg = .ok (some dfid))
    (hget : b.getErr = false) (hid : o.id ≠ "") :
    (resourceDataFactoryTriggerScheduleCreateUpdate sub now true cfg b (some o)).outcome
        = .failure (.importAsExists o.id)
    ∧ RemoteCall.createOrUpdate ∉
        (resourceDataFactoryTriggerScheduleCreateUpdate sub now true cfg b (some o)).trace := by
  simp [resourceDataFactoryTriggerScheduleCreateUpdate, hres, clientGet, hget, hid]

/-- Closed instance of claim C5 at a concrete configuration and a present
remote object. -/
theorem create_import_as_exists_witness :
    (resourceDataFactoryTriggerScheduleCreateUpdate "sub" "2024-01-01T00:00:00Z" true
        { name := "t", resource_group_name := "rg", data_factory_name := "df",
          data_factory_id := "", description := "", schedule := [],
          start_time := "", end_time := "", frequency := "Minute", interval := 1,
          activated := false, pipeline_name := "p1", pipeline_parameters := [],
          annotations := [] }
        { getErr := false, createOrUpdateErr := false, startErr := false,
          startWaitErr := false, stopErr := false, stopWaitErr := false, deleteErr := false }
        (some { id := "existing-id", name := "t", kind := "ScheduleTrigger",
                runtimeState := .stopped, recurrence := none, pipelines := none,
                annotations := none, description := none })).outcome
      = .failure (.importAsExists "existing-id")
    ∧ RemoteCall.createOrUpdate ∉
        (resourceDataFactoryTriggerScheduleCreateUpdate "sub" "2024-01-01T00:00:00Z" true
        { name := "t", resource_group_name := "rg", data_factory_name := "df",
          data_factory_id := "", description := "", schedule := [],
          start_time := "", end_time := "", frequency := "Minute", interval := 1,
          activated := false, pipeline_name := "p1", pipeline_parameters := [],
          annotations := [] }
        { getErr := false, createOrUpdateErr := false, startErr := false,
          startWaitErr := false, stopErr := false, stopWaitErr := false, deleteErr := false }
        (some { id := "existing-id", name := "t", kind := "ScheduleTrigger",
                runtimeState := .stopped, recurrence := none, pipelines := none,
                annotations := none, description := none })).trace := by
  exact create_import_as_exists "sub" "2024-01-01T00:00:00Z"
    { name := "t", resource_group_name := "rg", data_factory_name := "df",
      data_factory_id := "", description := "", schedule := [],
      start_time := "", end_time := "", frequency := "Minute", interval := 1,
      activated := false, pipeline_name := "p1", pipeline_parameters := [],
      annotations := [] }
    { getErr := false, createOrUpdateErr := false, startErr := false,
      startWaitErr := false, stopErr := false, stopWaitErr := false, deleteErr := false }
    { id := "existing-id", name := "t", kind := "ScheduleTrigger",
      runtimeState := .stopped, recurrence := none, pipelines := none,
      annotations := none, description := none }
    { subscriptionId := "sub", resourceGroup := "rg", factoryName := "df" }
    rfl rfl (by decide)

/-- Claim C7: a read that finds the remote object verifies its declared
kind is the schedule-trigger kind; on mismatch it fails with the
classification error and projects no state. -/
theorem read_classification_mismatch (tid : TriggerId) (o : RemoteTrigger) (d : StateData)
    (h : o.kind ≠ scheduleTriggerKind) :
    resourceDataFactoryTriggerScheduleRead false tid (some o) d
      = .error (.classificationError o.kind) := by
  simp [resourceDataFactoryTriggerScheduleRead, asScheduleTrigger, h]

/-- Closed instance of claim C7 at a concrete object of a different
trigger kind. -/
theorem read_classification_mismatch_witness :
    resourceDataFactoryTriggerScheduleRead false
        { subscriptionId := "sub", resourceGroup := "rg", factoryName := "df", name := "t" }
        (some { id := "x", name := "t", kind := "TumblingWindowTrigger",
                runtimeState := .stopped, recurrence := none, pipelines := none,
                annotations := none, description := none })
        { idStr := "x", name := "t", resource_group_name := "rg",
          data_factory_name := "df", data_factory_id := "", activated := false,
          start_time := "", end_time := "", frequency := "Minute", interval := 1,
          schedule := [], pipeline_name := "p1", pipeline_parameters := [],
          annotations := [], description := "" }
      = .error (.classificationError "TumblingWindowTrigger") := by
  exact read_classification_mismatch
    { subscriptionId := "sub", resourceGroup := "rg", factoryName := "df", name := "t" }
    { id := "x", name := "t", kind := "TumblingWindowTrigger",
      runtimeState := .stopped, recurrence := none, pipelines := none,
      annotations := none, description := none }
    { idStr := "x", name := "t", resource_group_name := "rg",
      data_factory_name := "df", data_factory_id := "", activated := false,
      start_time := "", end_time := "", frequency := "Minute", interval := 1,
      schedule := [], pipeline_name := "p1", pipeline_parameters := [],
      annotations := [], description := "" }
    (by decide)

/-- Claim C8: the factory-identity resolution picks whichever selector is
non-empty, and the explicit factory-identifier form takes precedence over
the name-based form when both are non-empty. -/
theorem factory_selector_resolution (sub : String) (cfg : ResourceConfig) :
    (cfg.data_factory_id = "" → cfg.data_factory_name ≠ "" →
      resolveDataFactoryId sub cfg = .ok (some
        { subscriptionId := sub, resourceGroup := cfg.resource_group_name,
          factoryName := cfg.data_factory_name }))
    ∧ (cfg.data_factory_id ≠ "" →
        ∀ v, parseDataFactoryID cfg.data_factory_id = .ok v →
          resolveDataFactoryId sub cfg = .ok (some v)) := by
  constructor
  · intro h1 h2
    simp [resolveDataFactoryId, h1, h2]
  · intro h1 v hv
    simp [resolveDataFactoryId, h1, hv]

/-- Closed instance of claim C8 with both selectors non-empty: the parsed
factory-identifier form wins over the name-based form. -/
theorem factory_selector_resolution_witness :
    resolveDataFactoryId "accountSub"
        { name := "t", resource_group_name := "otherRg", data_factory_name := "otherDf",
          data_factory_id :=
            "/subscriptions/s1/resourceGroups/g1/providers/Microsoft.DataFactory/factories/f1",
          description := "", schedule := [], start_time := "", end_time := "",
          frequency := "Minute", interval := 1, activated := false,
          pipeline_name := "p1", pipeline_parameters := [], annotations := [] }
      = .ok (some { subscriptionId := "s1", resourceGroup := "g1", factoryName := "f1" }) := by
  exact (factory_selector_resolution "accountSub"
    { name := "t", resource_group_name := "otherRg", data_factory_name := "otherDf",
      data_factory_id :=
        "/subscriptions/s1/resourceGroups/g1/providers/Microsoft.DataFactory/factories/f1",
      description := "", schedule := [], start_time := "", end_time := "",
      frequency := "Minute", interval := 1, activated := false,
      pipeline_name := "p1", pipeline_parameters := [], annotations := [] }).2
    (by decide)
    { subscriptionId := "s1", resourceGroup := "g1", factoryName := "f1" }
    rfl

/-- Claim C9: when both factory selectors are empty, the create/update
handler dereferences the unset factory identifier before any remote call:
the run ends in the nil-dereference outcome with an empty call trace and
an unchanged remote store. -/
theorem create_both_selectors_empty_panics (sub now : String) (isNew : Bool)
    (cfg : ResourceConfig) (b : ClientBehavior) (store : Option RemoteTrigger)
    (h1 : cfg.data_factory_name = "") (h2 : cfg.data_factory_id = "") :
    resourceDataFactoryTriggerScheduleCreateUpdate sub now isNew cfg b store
      = { outcome := .panicNilDeref, trace := [], store := store } := by
  simp [resourceDataFactoryTriggerScheduleCreateUpdate, resolveDataFactoryId, h1, h2]

/-- Closed instance of claim C9 at a concrete configuration with both
selectors empty. -/
theorem create_both_selectors_empty_panics_witness :
    resourceDataFactoryTriggerScheduleCreateUpdate "sub" "2024-01-01T00:00:00Z" true
        { name := "t", resource_group_name := "rg", data_factory_name := "",
          data_factory_id := "", description := "", schedule := [],
          start_time := "", end_time := "", frequency := "Minute", interval := 1,
          activated := false, pipeline_name := "p1", pipeline_parameters := [],
          annotations := [] }
        { getErr := false, createOrUpdateErr := false, startErr := false,
          startWaitErr := false, stopErr := false, stopWaitErr := false, deleteErr := false }
        none
      = { outcome := .panicNilDeref, trace := [], store := none } := by
  exact create_both_selectors_empty_panics "sub" "2024-01-01T00:00:00Z" true
    { name := "t", resource_group_name := "rg", data_factory_name := "",
      data_factory_id := "", description := "", schedule := [],
      start_time := "", end_time := "", frequency := "Minute", interval := 1,
      activated := false, pipeline_name := "p1", pipeline_parameters := [],
      annotations := [] }
    { getErr := false, createOrUpdateErr := false, startErr := false,
      startWaitErr := false, stopErr := false, stopWaitErr := false, deleteErr := false }
    none rfl rfl

/-- Claim C10: on a successful read of a found, correctly classified
object whose remote recurrence carries no schedule, the previously stored
schedule block is left unchanged (neither cleared nor set to an empty
block) while the other projected fields are updated from the remote
object. -/
theorem read_preserves_schedule_when_absent (tid : TriggerId) (o : RemoteTrigger)
    (rec : ScheduleTriggerRecurrence) (d : StateData)
    (hkind : o.kind = scheduleTriggerKind)
    (hrec : o.recurrence = some rec)
    (hsch : rec.schedule = none) :
    ∃ st, resourceDataFactoryTriggerScheduleRead false tid (some o) d = .ok st
      ∧ st.schedule = d.schedule
      ∧ st.name = o.name
      ∧ st.activated = isStarted o.runtimeState
      ∧ st.frequency = rec.frequency
      ∧ st.interval = rec.interval.getD 0
      ∧ st.annotations = flattenDataFactoryAnnotations o.annotations
      ∧ st.description = o.description.getD ""
      ∧ st.resource_group_name = tid.resourceGroup := by
  obtain ⟨oid, oname, okind, ost, orec, opipe, oann, odesc⟩ := o
  change okind = scheduleTriggerKind at hkind
  change orec = some rec at hrec
  subst hkind
  subst hrec
  obtain ⟨freq, intv, stt, ett, sch⟩ := rec
  change sch = none at hsch
  subst hsch
  cases stt <;> cases ett <;>
    rcases opipe with _ | (_ | ⟨⟨_ | r, params⟩, rest⟩) <;>
    exact ⟨_, rfl, rfl, rfl, rfl, rfl, rfl, rfl, rfl, rfl⟩

/-- Closed instance of claim C10: a read of a started trigger whose
recurrence has no schedule leaves the previously stored block intact. -/
theorem read_preserves_schedule_when_absent_witness :
    ∃ st, resourceDataFactoryTriggerScheduleRead false
        { subscriptionId := "sub", resourceGroup := "rg", factoryName := "df", name := "t" }
        (some { id := "x", name := "t", kind := "ScheduleTrigger",
                runtimeState := .started,
                recurrence := some { frequency := "Week", interval := some 2,
                                     startTime := none, endTime := none, schedule := none },
                pipelines := none, annotations := none, description := none })
        { idStr := "x", name := "t", resource_group_name := "rg",
          data_factory_name := "df", data_factory_id := "", activated := false,
          start_time := "", end_time := "", frequency := "Minute", interval := 1,
          schedule := [{ minutes := none, hours := none, days_of_week := some ["Monday"],
                         days_of_month := none, monthly := none }],
          pipeline_name := "p1", pipeline_parameters := [], annotations := [],
          description := "" }
      = .ok st
      ∧ st.schedule = [{ minutes := none, hours := none, days_of_week := some ["Monday"],
                         days_of_month := none, monthly := none }]
      ∧ st.activated = true := by
  obtain ⟨st, h1, h2, _, h4, -⟩ := read_preserves_schedule_when_absent
    { subscriptionId := "sub", resourceGroup := "rg", factoryName := "df", name := "t" }
    { id := "x", name := "t", kind := "ScheduleTrigger",
      runtimeState := .started,
      recurrence := some { frequency := "Week", interval := some 2,
                           startTime := none, endTime := none, schedule := none },
      pipelines := none, annotations := none, description := none }
    { frequency := "Week", interval := some 2, startTime := none, endTime := none,
      schedule := none }
    { idStr := "x", name := "t", resource_group_name := "rg",
      data_factory_name := "df", data_factory_id := "", activated := false,
      start_time := "", end_time := "", frequency := "Minute", interval := 1,
      schedule := [{ minutes := none, hours := none, days_of_week := some ["Monday"],
                     days_of_month := none, monthly := none }],
      pipeline_name := "p1", pipeline_parameters := [], annotations := [],
      description := "" }
    rfl rfl rfl
  exact ⟨st, h1, h2, h4⟩

theorem read_activated_of_schedule_kind (tid : TriggerId) (o : RemoteTrigger)
    (d : StateData) (hkind : o.kind = scheduleTriggerKind) :
    ∃ st, resourceDataFactoryTriggerScheduleRead false tid (some o) d = .ok st
      ∧ st.activated = isStarted o.runtimeState := by
  obtain ⟨oid, oname, okind, ost, orec, opipe, oann, odesc⟩ := o
  change okind = scheduleTriggerKind at hkind
  subst hkind
  rcases orec with _ | ⟨freq, intv, stt, ett, sch⟩
  · rcases opipe with _ | (_ | ⟨⟨_ | r, params⟩, rest⟩) <;> exact ⟨_, rfl, rfl⟩
  · cases stt <;> cases ett <;> cases sch <;>
      rcases opipe with _ | (_ | ⟨⟨_ | r, params⟩, rest⟩) <;> exact ⟨_, rfl, rfl⟩

/-- Claim C6: for every successful creation cycle on a fresh identity:
with `activated` false no start call is attempted and the subsequent read
reports activated false; with `activated` true, start is called after
createOrUpdate and its completion awaited, and the subsequent read
reports activated true (the read projects activated as
runtimeState = Started). -/
theorem create_activation_monotonic (sub now : String) (cfg : ResourceConfig)
    (b : ClientBehavior) (d : StateData) (tid : TriggerId) (i : TriggerId)
    (h : (resourceDataFactoryTriggerScheduleCreateUpdate sub now true cfg b none).outcome
          = .ok i) :
    (cfg.activated = false →
      RemoteCall.start ∉
          (resourceDataFactoryTriggerScheduleCreateUpdate sub now true cfg b none).trace
      ∧ ∃ st, resourceDataFactoryTriggerScheduleRead false tid
            (resourceDataFactoryTriggerScheduleCreateUpdate sub now true cfg b none).store d
          = .ok st ∧ st.activated = false)
    ∧ (cfg.activated = true →
      (resourceDataFactoryTriggerScheduleCreateUpdate sub now true cfg b none).trace
        = [.get, .createOrUpdate, .start, .startWait]
      ∧ ∃ st, resourceDataFactoryTriggerScheduleRead false tid
            (resourceDataFactoryTriggerScheduleCreateUpdate sub now true cfg b none).store d
          = .ok st ∧ st.activated = true) := by
  cases hres : resolveDataFactoryId sub cfg with
  | error e =>
    simp [resourceDataFactoryTriggerScheduleCreateUpdate, hres] at h
  | ok v =>
    cases v with
    | none => simp [resourceDataFactoryTriggerScheduleCreateUpdate, hres] at h
    | some dfid =>
      cases hg : b.getErr with
      | true =>
        simp [resourceDataFactoryTriggerScheduleCreateUpdate, hres, clientGet, hg] at h
      | false =>
        cases hco : b.createOrUpdateErr with
        | true =>
          simp [resourceDataFactoryTriggerScheduleCreateUpdate, createUpdateBody, hres,
            clientGet, hg, hco] at h
        | false =>
          cases hact : cfg.activated with
          | false =>
            have hstore :
                (resourceDataFactoryTriggerScheduleCreateUpdate sub now true cfg b none).store
                  = some (applyCreateOrUpdate
                      { subscriptionId := sub, resourceGroup := dfid.resourceGroup,
                        factoryName := dfid.factoryName, name := cfg.name }
                      (buildScheduleTrigger now cfg) none) := by
              simp [resourceDataFactoryTriggerScheduleCreateUpdate, createUpdateBody,
                hres, clientGet, hg, hco, hact]
            constructor
            · intro _
              constructor
              · simp [resourceDataFactoryTriggerScheduleCreateUpdate, createUpdateBody,
                  hres, clientGet, hg, hco, hact]
              · obtain ⟨st, hst, hact'⟩ := read_activated_of_schedule_kind tid
                  (applyCreateOrUpdate
                    { subscriptionId := sub, resourceGroup := dfid.resourceGroup,
                      factoryName := dfid.factoryName, name := cfg.name }
                    (buildScheduleTrigger now cfg) none) d rfl
                refine ⟨st, ?_, ?_⟩
                · rw [hstore]
                  exact hst
                · rw [hact']
                  rfl
            · intro hcontra
              exact absurd hcontra (by simp)
          | true =>
            cases hse : b.startErr with
            | true =>
              simp [resourceDataFactoryTriggerScheduleCreateUpdate, createUpdateBody,
                hres, clientGet, hg, hco, hact, hse] at h
            | false =>
              cases hsw : b.startWaitErr with
              | true =>
                simp [resourceDataFactoryTriggerScheduleCreateUpdate, createUpdateBody,
                  hres, clientGet, hg, hco, hact, hse, hsw] at h
              | false =>
                have hstore :
                    (resourceDataFactoryTriggerScheduleCreateUpdate
                        sub now true cfg b none).store
                      = some { applyCreateOrUpdate
                            { subscriptionId := sub, resourceGroup := dfid.resourceGroup,
                              factoryName := dfid.factoryName, name := cfg.name }
                            (buildScheduleTrigger now cfg) none
                          with runtimeState := .started } := by
                  simp [resourceDataFactoryTriggerScheduleCreateUpdate, createUpdateBody,
                    hres, clientGet, hg, hco, hact, hse, hsw]
                constructor
                · intro hcontra
                  exact absurd hcontra (by simp)
                · intro _
                  constructor
                  · simp [resourceDataFactoryTriggerScheduleCreateUpdate, createUpdateBody,
                      hres, clientGet, hg, hco, hact, hse, hsw]
                  · obtain ⟨st, hst, hact'⟩ := read_activated_of_schedule_kind tid
                      { applyCreateOrUpdate
                          { subscriptionId := sub, resourceGroup := dfid.resourceGroup,
                            factoryName := dfid.factoryName, name := cfg.name }
                          (buildScheduleTrigger now cfg) none
                        with runtimeState := .started } d rfl
                    refine ⟨st, ?_, ?_⟩
                    · rw [hstore]
                      exact hst
                    · rw [hact']
                      rfl

/-- Closed instance of claim C6: a successful creation with activated
true issues get, createOrUpdate, start and the start wait in that order,
and the subsequent read reports activated true. -/
theorem create_activation_monotonic_witness :
    (resourceDataFactoryTriggerScheduleCreateUpdate "sub" "2024-01-01T00:00:00Z" true
        { name := "t", resource_group_name := "rg", data_factory_name := "df",
          data_factory_id := "", description := "", schedule := [],
          start_time := "", end_time := "", frequency := "Week", interval := 2,
          activated := true, pipeline_name := "p1", pipeline_parameters := [],
          annotations := [] }
        { getErr := false, createOrUpdateErr := false, startErr := false,
          startWaitErr := false, stopErr := false, stopWaitErr := false,
          deleteErr := false }
        none).trace
      = [.get, .createOrUpdate, .start, .startWait]
    ∧ ∃ st, resourceDataFactoryTriggerScheduleRead false
          { subscriptionId := "sub", resourceGroup := "rg", factoryName := "df",
            name := "t" }
          (resourceDataFactoryTriggerScheduleCreateUpdate "sub" "2024-01-01T00:00:00Z" true
            { name := "t", resource_group_name := "rg", data_factory_name := "df",
              data_factory_id := "", description := "", schedule := [],
              start_time := "", end_time := "", frequency := "Week", interval := 2,
              activated := true, pipeline_name := "p1", pipeline_parameters := [],
              annotations := [] }
            { getErr := false, createOrUpdateErr := false, startErr := false,
              startWaitErr := false, stopErr := false, stopWaitErr := false,
              deleteErr := false }
            none).store
          { idStr := "", name := "", resource_group_name := "", data_factory_name := "",
            data_factory_id := "", activated := false, start_time := "", end_time := "",
            frequency := "", interval := 0, schedule := [], pipeline_name := "",
            pipeline_parameters := [], annotations := [], description := "" }
        = .ok st ∧ st.activated = true := by
  exact (create_activation_monotonic "sub" "2024-01-01T00:00:00Z"
    { name := "t", resource_group_name := "rg", data_factory_name := "df",
      data_factory_id := "", description := "", schedule := [],
      start_time := "", end_time := "", frequency := "Week", interval := 2,
      activated := true, pipeline_name := "p1", pipeline_parameters := [],
      annotations := [] }
    { getErr := false, createOrUpdateErr := false, startErr := false,
      startWaitErr := false, stopErr := false, stopWaitErr := false,
      deleteErr := false }
    { idStr := "", name := "", resource_group_name := "", data_factory_name := "",
      data_factory_id := "", activated := false, start_time := "", end_time := "",
      frequency := "", interval := 0, schedule := [], pipeline_name := "",
      pipeline_parameters := [], annotations := [], description := "" }
    { subscriptionId := "sub", resourceGroup := "rg", factoryName := "df", name := "t" }
    { subscriptionId := "sub", resourceGroup := "rg", factoryName := "df", name := "t" }
    rfl).2 rfl

end DataFactoryTriggerSchedule
